import Mathlib

/-
Verification of the frame-lifecycle / swapchain-management subsystem of the
Ritis rendering engine (src/Ritis/Renderer.hpp, src/Ritis/Window.hpp).

Modelling conventions:
  - Graphics-API calls (vkAcquireNextImageKHR via SwapChain::acquireNextImage,
    vkQueueSubmit/present via SwapChain::submitCommandBuffers,
    vkEndCommandBuffer, vkBeginCommandBuffer, vkAllocateCommandBuffers) are
    nondeterministic environment effects; each status they return is passed in
    as an explicit oracle argument to the embedded function.
  - window.getExtent() may return a different value at each call while the
    window is being resized, so Renderer::recreateSwapChain receives the
    sequence of successive extent readings as a list; an exhausted list with
    no non-zero-area reading models the loop still spinning (Outcome.stalled).
  - C++ exceptions (throw std::runtime_error) become Outcome.threw, failed
    assert calls (which abort the process) become the distinct
    Outcome.assertFailed, so that the two termination disciplines stay
    distinguishable.
  - Side effects relevant to the temporal claims are recorded in an event
    trace (List REvent) returned next to the result.
-/

namespace Ritis

/-- Pixel extent of the presentation surface, as returned by Window::getExtent
(a VkExtent2D of two unsigned 32-bit sizes, modelled as Nat). -/
structure Extent where
  width : Nat
  height : Nat
deriving DecidableEq, Repr

/-- Status codes of the graphics-API calls appearing in Renderer.hpp.
Renderer.hpp only ever compares a VkResult against VK_SUCCESS,
VK_SUBOPTIMAL_KHR and VK_ERROR_OUT_OF_DATE_KHR, so every other code is
collapsed into otherError with its raw integer value. -/
inductive VkResult where
  | success
  | suboptimalKHR
  | errorOutOfDateKHR
  | otherError (code : Int)
deriving DecidableEq, Repr

/-- Modelled from the spec: SwapChain.hpp is not among the sources; the spec
describes the chain as carrying an image pixel format and a depth format,
compared across recreation. Formats are opaque enumeration values (Nat). -/
structure SwapFormats where
  imageFormat : Nat
  depthFormat : Nat
deriving DecidableEq, Repr

/-- State of one SwapChain instance as far as Renderer.hpp observes it:
its formats and the surface extent it was built against. -/
structure SwapChain where
  formats : SwapFormats
  extent : Extent
deriving DecidableEq, Repr

/-- Modelled from the spec: SwapChain::compareSwapFormats (SwapChain.hpp is not
among the sources) compares the new image/depth pixel formats against the old
chain, detecting presentation configuration changes. -/
def SwapChain.compareSwapFormats (a b : SwapChain) : Bool :=
  a.formats.imageFormat == b.formats.imageFormat &&
    a.formats.depthFormat == b.formats.depthFormat

/-- Modelled from the spec: SwapChain::MAX_FRAMES_IN_FLIGHT (SwapChain.hpp is
not among the sources); the spec fixes N as a small constant, e.g. 2. -/
def MAX_FRAMES_IN_FLIGHT : Nat := 2

/-- Outcome of running a piece of Renderer code: normal return, a thrown
std::runtime_error (fatal, propagates up and terminates the run), a failed
assert (immediate process abort, a distinct discipline from a typed error),
or a non-terminating wait loop (window kept a zero-area extent forever). -/
inductive Outcome (α : Type) where
  | ok (a : α)
  | threw (msg : String)
  | assertFailed (msg : String)
  | stalled
deriving DecidableEq, Repr

/-- Functorial action on the normal-return case only; error cases propagate
unchanged, exactly as C++ exceptions and aborts cut past the caller code. -/
def Outcome.mapOk {α β : Type} (f : α → β) : Outcome α → Outcome β
  | Outcome.ok a => Outcome.ok (f a)
  | Outcome.threw m => Outcome.threw m
  | Outcome.assertFailed m => Outcome.assertFailed m
  | Outcome.stalled => Outcome.stalled

/-- Observable events of a Renderer operation, in program order. -/
inductive REvent where
  | readExtent (e : Extent)
  | waitEvents
  | deviceWaitIdle
  | constructSwapChain (withOldChain : Bool) (extent : Extent)
  | releaseOldChain
  | acquireNextImage
  | submitCommandBuffers
  | recreateCalled
deriving DecidableEq, Repr

/-- The zero-extent wait loop of Renderer::recreateSwapChain: given the value
of the latest window.getExtent() reading and the list of values the further
re-reads will return, produce the loop body events (each iteration re-reads
the extent and then calls glfwWaitEvents) and the extent that finally exits
the loop (none when every available reading still has a zero dimension, i.e.
the loop is still spinning). -/
def recreateReads : Extent → List Extent → List REvent × Option Extent
  | e, [] =>
      if e.width = 0 ∨ e.height = 0 then ([], none) else ([], some e)
  | e, e2 :: rest2 =>
      if e.width = 0 ∨ e.height = 0 then
        let p := recreateReads e2 rest2
        (REvent.readExtent e2 :: REvent.waitEvents :: p.1, p.2)
      else ([], some e)

/-- Result of Renderer::recreateSwapChain: its event trace and the new chain
(or the error that cut execution short). -/
structure RecreateOut where
  trace : List REvent
  result : Outcome SwapChain
deriving DecidableEq, Repr

/-- Embedding of Renderer::recreateSwapChain. `oldChain` is the current value
of the swapChain member (none only during the constructor's first call),
`e0` the first window.getExtent() reading, `rest` the values of subsequent
re-reads inside the wait loop, and `newFormats` the formats the driver picks
for the newly constructed chain. After the wait loop it calls
vkDeviceWaitIdle, then constructs the new chain (passing the old handle when
one exists); the old handle, moved into a local shared_ptr, is released when
that local dies at the end of the block — after construction, on the throwing
path as well (stack unwinding). A format mismatch detected by
compareSwapFormats throws. -/
def recreateSwapChain (oldChain : Option SwapChain) (e0 : Extent)
    (rest : List Extent) (newFormats : SwapFormats) : RecreateOut :=
  let p := recreateReads e0 rest
  match p.2 with
  | none => ⟨REvent.readExtent e0 :: p.1, Outcome.stalled⟩
  | some ext =>
    match oldChain with
    | none =>
        ⟨REvent.readExtent e0 :: p.1 ++
            [REvent.deviceWaitIdle, REvent.constructSwapChain false ext],
         Outcome.ok ⟨newFormats, ext⟩⟩
    | some old =>
        ⟨REvent.readExtent e0 :: p.1 ++
            [REvent.deviceWaitIdle, REvent.constructSwapChain true ext,
             REvent.releaseOldChain],
         if SwapChain.compareSwapFormats old ⟨newFormats, ext⟩ = false then
           Outcome.threw "Swap chain image(or depth) format has changed!"
         else Outcome.ok ⟨newFormats, ext⟩⟩

/-- State of one Renderer together with the Window flag it reads and writes.
Command buffer handles (VkCommandBuffer) are opaque, modelled as Nat. -/
structure RendererState where
  swapChain : SwapChain
  commandBuffers : List Nat
  currentImageIndex : Nat
  currentFrameIndex : Nat
  isFrameStarted : Bool
  windowResized : Bool
deriving DecidableEq, Repr

/-- Embedding of Renderer::getFrameIndex: asserts a frame is in progress,
then returns currentFrameIndex. -/
def getFrameIndex (s : RendererState) : Outcome Nat :=
  if s.isFrameStarted = false then
    Outcome.assertFailed "Cannot get frame index when frame not in progress"
  else Outcome.ok s.currentFrameIndex

/-- Embedding of Renderer::getCurrentCommandBuffer: asserts a frame is in
progress, then returns commandBuffers[currentFrameIndex]. -/
def getCurrentCommandBuffer (s : RendererState) : Outcome Nat :=
  if s.isFrameStarted = false then
    Outcome.assertFailed "Cannot get command buffer when frame not in progress"
  else Outcome.ok (s.commandBuffers.getD s.currentFrameIndex 0)

/-- Embedding of Renderer::createCommandBuffers: resizes the vector to
SwapChain::MAX_FRAMES_IN_FLIGHT and has the driver fill it with handles
(oracle `alloc`); a failed vkAllocateCommandBuffers throws. -/
def createCommandBuffers (alloc : Nat → Nat) (allocOk : Bool) :
    Outcome (List Nat) :=
  if allocOk = false then Outcome.threw "Failed to allocate command buffers"
  else Outcome.ok ((List.range MAX_FRAMES_IN_FLIGHT).map alloc)

/-- Result of Renderer::beginFrame: trace plus either the next state together
with the returned command buffer (none models the nullptr return of the
OutOfDate path) or the error that cut execution short. -/
structure BeginFrameOut where
  trace : List REvent
  result : Outcome (RendererState × Option Nat)
deriving DecidableEq, Repr

/-- Embedding of Renderer::beginFrame. Oracles: `acquireResult` is the status
of SwapChain::acquireNextImage, `acquiredImage` the image index it writes
through its out-pointer (modelled only on the successful statuses, where the
spec says the index is valid), `beginCmdOk` whether vkBeginCommandBuffer
succeeds, and `e0`/`rest`/`newFormats` feed a recreation if one is
triggered. -/
def beginFrame (s : RendererState) (acquireResult : VkResult)
    (acquiredImage : Nat) (beginCmdOk : Bool) (e0 : Extent)
    (rest : List Extent) (newFormats : SwapFormats) : BeginFrameOut :=
  if s.isFrameStarted = true then
    ⟨[], Outcome.assertFailed "Cannot call beginFrame while already in progress"⟩
  else if acquireResult = VkResult.errorOutOfDateKHR then
    let r := recreateSwapChain (some s.swapChain) e0 rest newFormats
    ⟨REvent.acquireNextImage :: REvent.recreateCalled :: r.trace,
     r.result.mapOk (fun c => ({ s with swapChain := c }, none))⟩
  else if acquireResult ≠ VkResult.success ∧ acquireResult ≠ VkResult.suboptimalKHR then
    ⟨[REvent.acquireNextImage], Outcome.threw "failed to acquire swap chain image"⟩
  else
    if beginCmdOk = false then
      ⟨[REvent.acquireNextImage],
       Outcome.threw "failed to transition command buffer to recording state"⟩
    else
      ⟨[REvent.acquireNextImage],
       Outcome.ok ({ s with currentImageIndex := acquiredImage,
                            isFrameStarted := true },
                   some (s.commandBuffers.getD s.currentFrameIndex 0))⟩

/-- Result of Renderer::endFrame: trace plus the next state or the error that
cut execution short. -/
structure EndFrameOut where
  trace : List REvent
  result : Outcome RendererState
deriving DecidableEq, Repr

/-- Embedding of Renderer::endFrame. Oracles: `endCmdOk` is whether
vkEndCommandBuffer succeeds, `submitResult` the status of
SwapChain::submitCommandBuffers, and `e0`/`rest`/`newFormats` feed a
recreation if one is triggered. On the recreation branch the window resize
flag is reset first; both the recreation branch and the plain success branch
then fall through to clearing isFrameStarted and advancing
currentFrameIndex by one modulo MAX_FRAMES_IN_FLIGHT. -/
def endFrame (s : RendererState) (endCmdOk : Bool) (submitResult : VkResult)
    (e0 : Extent) (rest : List Extent) (newFormats : SwapFormats) :
    EndFrameOut :=
  if s.isFrameStarted = false then
    ⟨[], Outcome.assertFailed "Cannot call endFrame while frame is not in progress"⟩
  else if endCmdOk = false then
    ⟨[], Outcome.threw "failed to transition command buffer to executable state"⟩
  else if submitResult = VkResult.errorOutOfDateKHR ∨
          submitResult = VkResult.suboptimalKHR ∨ s.windowResized = true then
    let r := recreateSwapChain (some s.swapChain) e0 rest newFormats
    ⟨REvent.submitCommandBuffers :: REvent.recreateCalled :: r.trace,
     r.result.mapOk (fun c =>
       { s with windowResized := false, swapChain := c,
                isFrameStarted := false,
                currentFrameIndex :=
                  (s.currentFrameIndex + 1) % MAX_FRAMES_IN_FLIGHT })⟩
  else if submitResult ≠ VkResult.success then
    ⟨[REvent.submitCommandBuffers],
     Outcome.threw "failed to present swap chain image"⟩
  else
    ⟨[REvent.submitCommandBuffers],
     Outcome.ok { s with isFrameStarted := false,
                         currentFrameIndex :=
                           (s.currentFrameIndex + 1) % MAX_FRAMES_IN_FLIGHT }⟩

/-- Embedding of Renderer::beginSwapChainRenderPass up to its two assert
calls (the body after them only records drawing state into the command
buffer, which is outside the Renderer state modelled here). -/
def beginSwapChainRenderPass (s : RendererState) (commandBuffer : Nat) :
    Outcome Unit :=
  if s.isFrameStarted = false then
    Outcome.assertFailed
      "Cannot call beginSwapChainRenderPass while frame is not in progress"
  else if commandBuffer ≠ s.commandBuffers.getD s.currentFrameIndex 0 then
    Outcome.assertFailed
      "Cannot begin render pass on commandbuffer from a different frame"
  else Outcome.ok ()

/-- Embedding of Renderer::endSwapChainRenderPass up to its two assert
calls. -/
def endSwapChainRenderPass (s : RendererState) (commandBuffer : Nat) :
    Outcome Unit :=
  if s.isFrameStarted = false then
    Outcome.assertFailed
      "Cannot call endSwapChainRenderPass while frame is not in progress"
  else if commandBuffer ≠ s.commandBuffers.getD s.currentFrameIndex 0 then
    Outcome.assertFailed
      "Cannot end render pass on commandbuffer from a different frame"
  else Outcome.ok ()

/-- Embedding of the Renderer constructor: recreateSwapChain (with no old
chain yet) then createCommandBuffers; member initializers set both indices
to 0 and isFrameStarted to false. The Window resize flag at construction
time is passed through. -/
def mkRenderer (e0 : Extent) (rest : List Extent) (fmts : SwapFormats)
    (alloc : Nat → Nat) (allocOk : Bool) (resized : Bool) :
    Outcome RendererState :=
  match (recreateSwapChain none e0 rest fmts).result with
  | Outcome.ok chain =>
      (createCommandBuffers alloc allocOk).mapOk
        (fun bufs => ⟨chain, bufs, 0, 0, false, resized⟩)
  | Outcome.threw m => Outcome.threw m
  | Outcome.assertFailed m => Outcome.assertFailed m
  | Outcome.stalled => Outcome.stalled

/-! Branch characterizations of the embedded operations, shared by the claim
theorems below. Each lemma restates one control-flow branch of the source as
an equation. -/

lemma endFrame_not_started (s : RendererState) (eOk : Bool) (r : VkResult)
    (e0 : Extent) (rest : List Extent) (f : SwapFormats)
    (h : s.isFrameStarted = false) :
    endFrame s eOk r e0 rest f =
      ⟨[], Outcome.assertFailed "Cannot call endFrame while frame is not in progress"⟩ := by
  simp [endFrame, h]

lemma endFrame_endCmd_fail (s : RendererState) (r : VkResult)
    (e0 : Extent) (rest : List Extent) (f : SwapFormats)
    (h : s.isFrameStarted = true) :
    endFrame s false r e0 rest f =
      ⟨[], Outcome.threw "failed to transition command buffer to executable state"⟩ := by
  simp [endFrame, h]

lemma endFrame_recreate (s : RendererState) (r : VkResult)
    (e0 : Extent) (rest : List Extent) (f : SwapFormats)
    (h : s.isFrameStarted = true)
    (hc : r = VkResult.errorOutOfDateKHR ∨ r = VkResult.suboptimalKHR ∨
          s.windowResized = true) :
    endFrame s true r e0 rest f =
      ⟨REvent.submitCommandBuffers :: REvent.recreateCalled ::
          (recreateSwapChain (some s.swapChain) e0 rest f).trace,
       ((recreateSwapChain (some s.swapChain) e0 rest f).result).mapOk (fun c =>
         { s with windowResized := false, swapChain := c,
                  isFrameStarted := false,
                  currentFrameIndex :=
                    (s.currentFrameIndex + 1) % MAX_FRAMES_IN_FLIGHT })⟩ := by
  simp [endFrame, h, hc]

lemma endFrame_hard_failure (s : RendererState) (r : VkResult)
    (e0 : Extent) (rest : List Extent) (f : SwapFormats)
    (h : s.isFrameStarted = true)
    (hc : ¬(r = VkResult.errorOutOfDateKHR ∨ r = VkResult.suboptimalKHR ∨
            s.windowResized = true))
    (hr : r ≠ VkResult.success) :
    endFrame s true r e0 rest f =
      ⟨[REvent.submitCommandBuffers],
       Outcome.threw "failed to present swap chain image"⟩ := by
  simp [endFrame, h, hc, hr]

lemma endFrame_plain_success (s : RendererState)
    (e0 : Extent) (rest : List Extent) (f : SwapFormats)
    (h : s.isFrameStarted = true) (hw : s.windowResized = false) :
    endFrame s true VkResult.success e0 rest f =
      ⟨[REvent.submitCommandBuffers],
       Outcome.ok { s with isFrameStarted := false,
                           currentFrameIndex :=
                             (s.currentFrameIndex + 1) % MAX_FRAMES_IN_FLIGHT }⟩ := by
  simp [endFrame, h, hw]

lemma beginFrame_started (s : RendererState) (acq : VkResult) (img : Nat)
    (bOk : Bool) (e0 : Extent) (rest : List Extent) (f : SwapFormats)
    (h : s.isFrameStarted = true) :
    beginFrame s acq img bOk e0 rest f =
      ⟨[], Outcome.assertFailed "Cannot call beginFrame while already in progress"⟩ := by
  simp [beginFrame, h]

lemma beginFrame_outOfDate (s : RendererState) (img : Nat) (bOk : Bool)
    (e0 : Extent) (rest : List Extent) (f : SwapFormats)
    (h : s.isFrameStarted = false) :
    beginFrame s VkResult.errorOutOfDateKHR img bOk e0 rest f =
      ⟨REvent.acquireNextImage :: REvent.recreateCalled ::
          (recreateSwapChain (some s.swapChain) e0 rest f).trace,
       ((recreateSwapChain (some s.swapChain) e0 rest f).result).mapOk
         (fun c => ({ s with swapChain := c }, none))⟩ := by
  simp [beginFrame, h]

lemma beginFrame_hard_failure (s : RendererState) (acq : VkResult) (img : Nat)
    (bOk : Bool) (e0 : Extent) (rest : List Extent) (f : SwapFormats)
    (h : s.isFrameStarted = false) (h1 : acq ≠ VkResult.errorOutOfDateKHR)
    (h2 : acq ≠ VkResult.success) (h3 : acq ≠ VkResult.suboptimalKHR) :
    beginFrame s acq img bOk e0 rest f =
      ⟨[REvent.acquireNextImage],
       Outcome.threw "failed to acquire swap chain image"⟩ := by
  simp [beginFrame, h, h1, h2, h3]

lemma beginFrame_success (s : RendererState) (acq : VkResult) (img : Nat)
    (e0 : Extent) (rest : List Extent) (f : SwapFormats)
    (h : s.isFrameStarted = false)
    (ha : acq = VkResult.success ∨ acq = VkResult.suboptimalKHR) :
    beginFrame s acq img true e0 rest f =
      ⟨[REvent.acquireNextImage],
       Outcome.ok ({ s with currentImageIndex := img, isFrameStarted := true },
                   some (s.commandBuffers.getD s.currentFrameIndex 0))⟩ := by
  rcases ha with ha | ha <;> subst ha <;> simp [beginFrame, h]

lemma Outcome.mapOk_eq_ok {α β : Type} (f : α → β) (o : Outcome α) (b : β)
    (h : o.mapOk f = Outcome.ok b) : ∃ a, o = Outcome.ok a ∧ b = f a := by
  cases o with
  | ok a => exact ⟨a, rfl, by simpa [Outcome.mapOk] using h.symm⟩
  | threw m => simp [Outcome.mapOk] at h
  | assertFailed m => simp [Outcome.mapOk] at h
  | stalled => simp [Outcome.mapOk] at h

lemma recreateReads_loop_events (e : Extent) (rest : List Extent) :
    ∀ ev ∈ (recreateReads e rest).1,
      (∃ x, ev = REvent.readExtent x) ∨ ev = REvent.waitEvents := by
  induction rest generalizing e with
  | nil =>
      intro ev hev
      by_cases h : e.width = 0 ∨ e.height = 0 <;> simp [recreateReads, h] at hev
  | cons e2 rest2 ih =>
      intro ev hev
      by_cases h : e.width = 0 ∨ e.height = 0
      · simp [recreateReads, h] at hev
        rcases hev with h1 | h1 | h1
        · exact Or.inl ⟨e2, h1⟩
        · exact Or.inr h1
        · exact ih e2 ev h1
      · simp [recreateReads, h] at hev

lemma recreateReads_some (e : Extent) (rest : List Extent) (ext : Extent)
    (h : (recreateReads e rest).2 = some ext) :
    (ext.width ≠ 0 ∧ ext.height ≠ 0) ∧
    ∃ zs tail, e :: rest = zs ++ ext :: tail ∧
      ∀ z ∈ zs, z.width = 0 ∨ z.height = 0 := by
  induction rest generalizing e with
  | nil =>
      by_cases hz : e.width = 0 ∨ e.height = 0
      · simp [recreateReads, hz] at h
      · push_neg at hz
        simp [recreateReads, hz] at h
        subst h
        exact ⟨hz, [], [], rfl, by simp⟩
  | cons e2 rest2 ih =>
      by_cases hz : e.width = 0 ∨ e.height = 0
      · simp [recreateReads, hz] at h
        obtain ⟨hne, zs, tail, hdec, hzero⟩ := ih e2 h
        refine ⟨hne, e :: zs, tail, by simp [hdec], ?_⟩
        intro z hz2
        rcases List.mem_cons.mp hz2 with h1 | h1
        · exact h1 ▸ hz
        · exact hzero z h1
      · push_neg at hz
        simp [recreateReads, hz] at h
        subst h
        exact ⟨hz, [], e2 :: rest2, rfl, by simp⟩

lemma recreateReads_none (e : Extent) (rest : List Extent)
    (h : ∀ x ∈ e :: rest, x.width = 0 ∨ x.height = 0) :
    (recreateReads e rest).2 = none := by
  induction rest generalizing e with
  | nil => simp [recreateReads, h e (by simp)]
  | cons e2 rest2 ih =>
      have he := h e (by simp)
      simp [recreateReads, he]
      exact ih e2 (fun x hx => h x (List.mem_cons_of_mem e hx))

lemma recreateSwapChain_stalled_eq (o : Option SwapChain) (e0 : Extent)
    (rest : List Extent) (f : SwapFormats)
    (h : (recreateReads e0 rest).2 = none) :
    recreateSwapChain o e0 rest f =
      ⟨REvent.readExtent e0 :: (recreateReads e0 rest).1, Outcome.stalled⟩ := by
  simp [recreateSwapChain, h]

lemma recreateSwapChain_fresh_eq (e0 : Extent) (rest : List Extent)
    (f : SwapFormats) (ext : Extent)
    (h : (recreateReads e0 rest).2 = some ext) :
    recreateSwapChain none e0 rest f =
      ⟨REvent.readExtent e0 :: (recreateReads e0 rest).1 ++
          [REvent.deviceWaitIdle, REvent.constructSwapChain false ext],
       Outcome.ok ⟨f, ext⟩⟩ := by
  simp [recreateSwapChain, h]

lemma recreateSwapChain_old_eq (old : SwapChain) (e0 : Extent)
    (rest : List Extent) (f : SwapFormats) (ext : Extent)
    (h : (recreateReads e0 rest).2 = some ext) :
    recreateSwapChain (some old) e0 rest f =
      ⟨REvent.readExtent e0 :: (recreateReads e0 rest).1 ++
          [REvent.deviceWaitIdle, REvent.constructSwapChain true ext,
           REvent.releaseOldChain],
       if SwapChain.compareSwapFormats old ⟨f, ext⟩ = false then
         Outcome.threw "Swap chain image(or depth) format has changed!"
       else Outcome.ok ⟨f, ext⟩⟩ := by
  simp [recreateSwapChain, h]

lemma mem_left_of_append_cons {α : Type} (A C : List α) (x ev : α)
    (pre post : List α) (hA : ∀ a ∈ A, a ≠ ev) (hx : x ≠ ev)
    (heq : A ++ x :: C = pre ++ ev :: post) : x ∈ pre := by
  induction A generalizing pre with
  | nil =>
      cases pre with
      | nil =>
          simp at heq
          exact absurd heq.1 hx
      | cons p pre2 =>
          simp at heq
          rw [heq.1]
          exact List.mem_cons_self p pre2
  | cons a A2 ih =>
      cases pre with
      | nil =>
          simp at heq
          exact absurd heq.1 (hA a (List.mem_cons_self a A2))
      | cons p pre2 =>
          simp at heq
          exact List.mem_cons_of_mem p
            (ih pre2 (fun b hb => hA b (List.mem_cons_of_mem a hb)) heq.2)

lemma beginFrame_beginCmd_fail (s : RendererState) (acq : VkResult)
    (img : Nat) (e0 : Extent) (rest : List Extent) (f : SwapFormats)
    (h : s.isFrameStarted = false)
    (ha : acq = VkResult.success ∨ acq = VkResult.suboptimalKHR) :
    beginFrame s acq img false e0 rest f =
      ⟨[REvent.acquireNextImage],
       Outcome.threw "failed to transition command buffer to recording state"⟩ := by
  rcases ha with ha | ha <;> subst ha <;> simp [beginFrame, h]

/-- Concrete swap formats used by the executable witnesses. -/
def sampleFormats : SwapFormats := ⟨37, 126⟩

/-- Concrete swapchain used by the executable witnesses. -/
def sampleChain : SwapChain := ⟨sampleFormats, ⟨800, 600⟩⟩

/-- Concrete Renderer state with no frame in progress. -/
def sampleIdle : RendererState := ⟨sampleChain, [10, 11], 0, 0, false, false⟩

/-- Concrete Renderer state with a frame in progress. -/
def sampleStarted : RendererState := ⟨sampleChain, [10, 11], 0, 0, true, false⟩

/-- Concrete Renderer state with a frame in progress and the window resize
flag set. -/
def sampleResized : RendererState := ⟨sampleChain, [10, 11], 2, 1, true, true⟩

/-- Concrete non-zero surface extent used by the executable witnesses. -/
def sampleExtent : Extent := ⟨800, 600⟩

/-- Claim C1: endFrame advances the frame slot index to (index + 1) mod
MAX_FRAMES_IN_FLIGHT exactly once, unconditionally upon returning normally
(whether or not recreation was triggered on the way), and a beginFrame that
completes - with or without a command buffer - never changes the slot index.
An endFrame that does not return normally throws or aborts, terminating the
run before the update on the last line of its body, so a failed or aborted
frame produces no successor state and never advances the index. -/
theorem endFrame_slot_advance (s s' sb : RendererState) (eOk bOk : Bool)
    (r acq : VkResult) (img : Nat) (cb : Option Nat)
    (e0 : Extent) (rest : List Extent) (f : SwapFormats) :
    ((endFrame s eOk r e0 rest f).result = Outcome.ok s' →
      s'.currentFrameIndex = (s.currentFrameIndex + 1) % MAX_FRAMES_IN_FLIGHT ∧
      s'.isFrameStarted = false) ∧
    ((beginFrame s acq img bOk e0 rest f).result = Outcome.ok (sb, cb) →
      sb.currentFrameIndex = s.currentFrameIndex) := by
  constructor
  · intro h
    cases h1 : s.isFrameStarted with
    | false =>
        rw [endFrame_not_started s eOk r e0 rest f h1] at h
        simp at h
    | true =>
        cases eOk with
        | false =>
            rw [endFrame_endCmd_fail s r e0 rest f h1] at h
            simp at h
        | true =>
            by_cases hc : r = VkResult.errorOutOfDateKHR ∨
                r = VkResult.suboptimalKHR ∨ s.windowResized = true
            · rw [endFrame_recreate s r e0 rest f h1 hc] at h
              simp only at h
              obtain ⟨c, _, hs'⟩ := Outcome.mapOk_eq_ok _ _ _ h
              subst hs'
              exact ⟨rfl, rfl⟩
            · by_cases hr : r = VkResult.success
              · subst hr
                have hw : s.windowResized = false := by
                  cases hw : s.windowResized with
                  | false => rfl
                  | true => exact absurd (Or.inr (Or.inr hw)) hc
                rw [endFrame_plain_success s e0 rest f h1 hw] at h
                simp only at h
                rw [Outcome.ok.injEq] at h
                subst h
                exact ⟨rfl, rfl⟩
              · rw [endFrame_hard_failure s r e0 rest f h1 hc hr] at h
                simp at h
  · intro h
    cases h1 : s.isFrameStarted with
    | true =>
        rw [beginFrame_started s acq img bOk e0 rest f h1] at h
        simp at h
    | false =>
        by_cases hood : acq = VkResult.errorOutOfDateKHR
        · subst hood
          rw [beginFrame_outOfDate s img bOk e0 rest f h1] at h
          simp only at h
          obtain ⟨c, _, hs'⟩ := Outcome.mapOk_eq_ok _ _ _ h
          rw [Prod.mk.injEq] at hs'
          rw [hs'.1]
        · by_cases ha : acq = VkResult.success ∨ acq = VkResult.suboptimalKHR
          · cases bOk with
            | false =>
                rw [beginFrame_beginCmd_fail s acq img e0 rest f h1 ha] at h
                simp at h
            | true =>
                rw [beginFrame_success s acq img e0 rest f h1 ha] at h
                simp only at h
                rw [Outcome.ok.injEq, Prod.mk.injEq] at h
                rw [← h.1]
          · push_neg at ha
            rw [beginFrame_hard_failure s acq img bOk e0 rest f h1 hood ha.1 ha.2] at h
            simp at h

/-- Witness for endFrame_slot_advance: a plain successful endFrame from slot 0
moves exactly to slot 1, and a successful beginFrame leaves the slot at 0. -/
theorem endFrame_slot_advance_witness :
    (endFrame sampleStarted true VkResult.success sampleExtent [] sampleFormats).result =
      Outcome.ok { sampleStarted with isFrameStarted := false, currentFrameIndex := 1 } ∧
    ({ sampleStarted with isFrameStarted := false, currentFrameIndex := 1 } : RendererState).currentFrameIndex =
      (sampleStarted.currentFrameIndex + 1) % MAX_FRAMES_IN_FLIGHT ∧
    (beginFrame sampleIdle VkResult.success 2 true sampleExtent [] sampleFormats).result =
      Outcome.ok ({ sampleIdle with currentImageIndex := 2, isFrameStarted := true }, some 10) ∧
    ({ sampleIdle with currentImageIndex := 2, isFrameStarted := true } : RendererState).currentFrameIndex =
      sampleIdle.currentFrameIndex := by
  refine ⟨by decide, ?_, by decide, ?_⟩
  · exact ((endFrame_slot_advance sampleStarted
      { sampleStarted with isFrameStarted := false, currentFrameIndex := 1 }
      sampleIdle true true VkResult.success VkResult.success 2 (some 10)
      sampleExtent [] sampleFormats).1 (by decide)).1
  · exact (endFrame_slot_advance sampleIdle sampleIdle
      { sampleIdle with currentImageIndex := 2, isFrameStarted := true }
      true true VkResult.success VkResult.success 2 (some 10)
      sampleExtent [] sampleFormats).2 (by decide)

/-- Counterexample to claim C2 as stated: with the window resize flag set, a
submit status outside the Success/Suboptimal/OutOfDate taxonomy is swallowed
by the recreation branch of Renderer::endFrame (the condition on line 172
tests the resize flag together with the soft statuses, before the
hard-failure check on line 176), so endFrame completes normally — resetting
the flag, recreating the chain and advancing the slot — instead of
propagating a fatal error. VK_ERROR_DEVICE_LOST is modelled as
otherError (-4). -/
theorem hard_failure_masked_by_resize_flag :
    sampleResized.windowResized = true ∧
    (endFrame sampleResized true (VkResult.otherError (-4)) sampleExtent []
        sampleFormats).result =
      Outcome.ok { sampleResized with
                   windowResized := false,
                   swapChain := ⟨sampleFormats, sampleExtent⟩,
                   isFrameStarted := false,
                   currentFrameIndex := 0 } := by
  decide

/-- Claim C2 amended: a submitCommandBuffers status outside the
Success/Suboptimal/OutOfDate taxonomy is propagated by endFrame as a fatal,
unrecoverable error with no retry — provided the window resize flag is not
set; when the flag is set, the recreation condition captures the call first
and the hard failure is masked. -/
theorem hard_failure_fatal_without_resize (s : RendererState) (r : VkResult)
    (e0 : Extent) (rest : List Extent) (f : SwapFormats)
    (h : s.isFrameStarted = true)
    (h1 : r ≠ VkResult.success) (h2 : r ≠ VkResult.suboptimalKHR)
    (h3 : r ≠ VkResult.errorOutOfDateKHR) (hw : s.windowResized = false) :
    (endFrame s true r e0 rest f).result =
      Outcome.threw "failed to present swap chain image" := by
  have hc : ¬(r = VkResult.errorOutOfDateKHR ∨ r = VkResult.suboptimalKHR ∨
      s.windowResized = true) := by
    rintro (h4 | h4 | h4)
    · exact h3 h4
    · exact h2 h4
    · rw [hw] at h4
      exact Bool.false_ne_true h4
  rw [endFrame_hard_failure s r e0 rest f h hc h1]

/-- Witness for hard_failure_fatal_without_resize at a concrete device-loss
status with the resize flag clear. -/
theorem hard_failure_fatal_without_resize_witness :
    (endFrame sampleStarted true (VkResult.otherError (-4)) sampleExtent []
        sampleFormats).result =
      Outcome.threw "failed to present swap chain image" :=
  hard_failure_fatal_without_resize sampleStarted (VkResult.otherError (-4))
    sampleExtent [] sampleFormats (by decide) (by decide) (by decide)
    (by decide) (by decide)

/-- Claim C3: when acquireNextImage reports OutOfDate, beginFrame triggers
swapchain recreation (a recreateCalled event appears in its trace) and,
whenever it returns normally, returns no command buffer, with the frame slot
index not advanced, no frame marked in progress, and the image index and
command buffers untouched — the caller skips rendering for that tick. -/
theorem beginFrame_outOfDate_skips_frame (s sb : RendererState) (img : Nat)
    (bOk : Bool) (cb : Option Nat) (e0 : Extent) (rest : List Extent)
    (f : SwapFormats) (h : s.isFrameStarted = false) :
    REvent.recreateCalled ∈
      (beginFrame s VkResult.errorOutOfDateKHR img bOk e0 rest f).trace ∧
    ((beginFrame s VkResult.errorOutOfDateKHR img bOk e0 rest f).result =
        Outcome.ok (sb, cb) →
      cb = none ∧ sb.currentFrameIndex = s.currentFrameIndex ∧
      sb.isFrameStarted = false ∧ sb.currentImageIndex = s.currentImageIndex ∧
      sb.commandBuffers = s.commandBuffers) := by
  rw [beginFrame_outOfDate s img bOk e0 rest f h]
  constructor
  · simp
  · intro hok
    simp only at hok
    obtain ⟨c, _, hs'⟩ := Outcome.mapOk_eq_ok _ _ _ hok
    rw [Prod.mk.injEq] at hs'
    refine ⟨hs'.2, ?_⟩
    rw [hs'.1]
    exact ⟨rfl, h, rfl, rfl⟩

/-- Witness for beginFrame_outOfDate_skips_frame on a concrete idle state
(the recreated chain keeps the same formats and extent, so the returned state
equals the input state and the command buffer is none). -/
theorem beginFrame_outOfDate_skips_frame_witness :
    sampleIdle.isFrameStarted = false ∧
    REvent.recreateCalled ∈
      (beginFrame sampleIdle VkResult.errorOutOfDateKHR 5 true sampleExtent []
        sampleFormats).trace ∧
    ((none : Option Nat) = none ∧
     sampleIdle.currentFrameIndex = sampleIdle.currentFrameIndex ∧
     sampleIdle.isFrameStarted = false ∧
     sampleIdle.currentImageIndex = sampleIdle.currentImageIndex ∧
     sampleIdle.commandBuffers = sampleIdle.commandBuffers) := by
  have h := beginFrame_outOfDate_skips_frame sampleIdle sampleIdle 5 true none
    sampleExtent [] sampleFormats (by decide)
  exact ⟨by decide, h.1, h.2 (by decide)⟩

/-- Claim C9: calling beginFrame while a frame is already in progress, or
endFrame, getFrameIndex or getCurrentCommandBuffer while no frame is in
progress, fails a defensive assertion — the distinguished assertFailed
outcome modelling immediate process termination — rather than the typed,
recoverable error outcome used for runtime failures. -/
theorem lifecycle_assertions (s : RendererState) (acq r : VkResult)
    (img : Nat) (bOk eOk : Bool) (e0 : Extent) (rest : List Extent)
    (f : SwapFormats) :
    (s.isFrameStarted = true →
      (beginFrame s acq img bOk e0 rest f).result =
        Outcome.assertFailed "Cannot call beginFrame while already in progress") ∧
    (s.isFrameStarted = false →
      (endFrame s eOk r e0 rest f).result =
        Outcome.assertFailed "Cannot call endFrame while frame is not in progress" ∧
      getFrameIndex s =
        Outcome.assertFailed "Cannot get frame index when frame not in progress" ∧
      getCurrentCommandBuffer s =
        Outcome.assertFailed "Cannot get command buffer when frame not in progress") := by
  constructor
  · intro h
    rw [beginFrame_started s acq img bOk e0 rest f h]
  · intro h
    refine ⟨?_, ?_, ?_⟩
    · rw [endFrame_not_started s eOk r e0 rest f h]
    · simp [getFrameIndex, h]
    · simp [getCurrentCommandBuffer, h]

/-- Witness for lifecycle_assertions on the concrete in-progress and idle
states. -/
theorem lifecycle_assertions_witness :
    (sampleStarted.isFrameStarted = true ∧
     (beginFrame sampleStarted VkResult.success 0 true sampleExtent []
        sampleFormats).result =
       Outcome.assertFailed "Cannot call beginFrame while already in progress") ∧
    (sampleIdle.isFrameStarted = false ∧
     (endFrame sampleIdle true VkResult.success sampleExtent []
        sampleFormats).result =
       Outcome.assertFailed "Cannot call endFrame while frame is not in progress" ∧
     getFrameIndex sampleIdle =
       Outcome.assertFailed "Cannot get frame index when frame not in progress" ∧
     getCurrentCommandBuffer sampleIdle =
       Outcome.assertFailed "Cannot get command buffer when frame not in progress") := by
  have h1 := (lifecycle_assertions sampleStarted VkResult.success
    VkResult.success 0 true true sampleExtent [] sampleFormats).1 (by decide)
  have h2 := (lifecycle_assertions sampleIdle VkResult.success
    VkResult.success 0 true true sampleExtent [] sampleFormats).2 (by decide)
  exact ⟨⟨by decide, h1⟩, ⟨by decide, h2⟩⟩

/-- Claim C10: beginSwapChainRenderPass and endSwapChainRenderPass assert that
a frame is in progress and that the command buffer argument is exactly the
current frame slot's command buffer; the current slot's buffer passes both
assertions, and — with pairwise-distinct handles, as the driver allocates
them — the buffer of any other frame slot fails the second assertion. -/
theorem render_pass_command_buffer_assertions (s : RendererState) (cb j : Nat) :
    (s.isFrameStarted = false →
      beginSwapChainRenderPass s cb =
        Outcome.assertFailed "Cannot call beginSwapChainRenderPass while frame is not in progress" ∧
      endSwapChainRenderPass s cb =
        Outcome.assertFailed "Cannot call endSwapChainRenderPass while frame is not in progress") ∧
    (s.isFrameStarted = true →
      cb ≠ s.commandBuffers.getD s.currentFrameIndex 0 →
      beginSwapChainRenderPass s cb =
        Outcome.assertFailed "Cannot begin render pass on commandbuffer from a different frame" ∧
      endSwapChainRenderPass s cb =
        Outcome.assertFailed "Cannot end render pass on commandbuffer from a different frame") ∧
    (s.isFrameStarted = true →
      beginSwapChainRenderPass s (s.commandBuffers.getD s.currentFrameIndex 0) =
        Outcome.ok () ∧
      endSwapChainRenderPass s (s.commandBuffers.getD s.currentFrameIndex 0) =
        Outcome.ok ()) ∧
    (s.isFrameStarted = true → s.commandBuffers.Nodup →
      j < s.commandBuffers.length →
      s.currentFrameIndex < s.commandBuffers.length →
      j ≠ s.currentFrameIndex →
      beginSwapChainRenderPass s (s.commandBuffers.getD j 0) =
        Outcome.assertFailed "Cannot begin render pass on commandbuffer from a different frame") := by
  refine ⟨?_, ?_, ?_, ?_⟩
  · intro h
    exact ⟨by simp [beginSwapChainRenderPass, h],
           by simp [endSwapChainRenderPass, h]⟩
  · intro h hne
    simp only [List.getD_eq_getElem?_getD] at hne
    exact ⟨by simp [beginSwapChainRenderPass, h, hne],
           by simp [endSwapChainRenderPass, h, hne]⟩
  · intro h
    exact ⟨by simp [beginSwapChainRenderPass, h],
           by simp [endSwapChainRenderPass, h]⟩
  · intro h hnd hj hcur hne
    have hgd : s.commandBuffers.getD j 0 ≠
        s.commandBuffers.getD s.currentFrameIndex 0 := by
      rw [List.getD_eq_getElem s.commandBuffers 0 hj,
          List.getD_eq_getElem s.commandBuffers 0 hcur]
      intro heq
      exact hne ((List.Nodup.getElem_inj_iff hnd).mp heq)
    simp only [List.getD_eq_getElem?_getD] at hgd
    simp [beginSwapChainRenderPass, h, hgd]

/-- Witness for render_pass_command_buffer_assertions: on the concrete
in-progress state, the idle state, and frame slot 1 versus current slot 0. -/
theorem render_pass_command_buffer_assertions_witness :
    (beginSwapChainRenderPass sampleIdle 10 =
      Outcome.assertFailed "Cannot call beginSwapChainRenderPass while frame is not in progress") ∧
    (beginSwapChainRenderPass sampleStarted 99 =
      Outcome.assertFailed "Cannot begin render pass on commandbuffer from a different frame") ∧
    (beginSwapChainRenderPass sampleStarted
        (sampleStarted.commandBuffers.getD sampleStarted.currentFrameIndex 0) =
      Outcome.ok ()) ∧
    (beginSwapChainRenderPass sampleStarted
        (sampleStarted.commandBuffers.getD 1 0) =
      Outcome.assertFailed "Cannot begin render pass on commandbuffer from a different frame") := by
  refine ⟨?_, ?_, ?_, ?_⟩
  · exact ((render_pass_command_buffer_assertions sampleIdle 10 1).1
      (by decide)).1
  · exact ((render_pass_command_buffer_assertions sampleStarted 99 1).2.1
      (by decide) (by decide)).1
  · exact ((render_pass_command_buffer_assertions sampleStarted 99 1).2.2.1
      (by decide)).1
  · exact (render_pass_command_buffer_assertions sampleStarted 99 1).2.2.2
      (by decide) (by decide) (by decide) (by decide) (by decide)

lemma loop_no_construct (e : Extent) (rest : List Extent) (b : Bool)
    (x : Extent) :
    REvent.constructSwapChain b x ∉ (recreateReads e rest).1 := by
  intro hmem
  rcases recreateReads_loop_events e rest _ hmem with ⟨y, hy⟩ | hy <;> simp at hy

/-- Claim C4: for a surface extent with a zero dimension, recreateSwapChain
constructs no swapchain against it: when every extent reading has a zero
dimension the wait loop keeps spinning with no construction event at all,
and any construction that does occur uses the first non-zero-area reading,
every earlier reading having had a zero dimension. -/
theorem recreate_zero_extent_stall (old : Option SwapChain) (e0 : Extent)
    (rest : List Extent) (f : SwapFormats) :
    ((∀ e ∈ e0 :: rest, e.width = 0 ∨ e.height = 0) →
      (recreateSwapChain old e0 rest f).result = Outcome.stalled ∧
      ∀ b ext, REvent.constructSwapChain b ext ∉
        (recreateSwapChain old e0 rest f).trace) ∧
    (∀ b ext, REvent.constructSwapChain b ext ∈
        (recreateSwapChain old e0 rest f).trace →
      ext.width ≠ 0 ∧ ext.height ≠ 0 ∧
      ∃ zs tail, e0 :: rest = zs ++ ext :: tail ∧
        ∀ z ∈ zs, z.width = 0 ∨ z.height = 0) := by
  constructor
  · intro hz
    have hn := recreateReads_none e0 rest hz
    rw [recreateSwapChain_stalled_eq old e0 rest f hn]
    refine ⟨rfl, ?_⟩
    intro b ext hmem
    simp only [List.mem_cons] at hmem
    rcases hmem with h1 | h1
    · simp at h1
    · exact loop_no_construct e0 rest b ext h1
  · intro b ext hmem
    cases hc : (recreateReads e0 rest).2 with
    | none =>
        rw [recreateSwapChain_stalled_eq old e0 rest f hc] at hmem
        simp only [List.mem_cons] at hmem
        rcases hmem with h1 | h1
        · simp at h1
        · exact absurd h1 (loop_no_construct e0 rest b ext)
    | some ex =>
        have hkey : ext = ex := by
          cases old with
          | none =>
              rw [recreateSwapChain_fresh_eq e0 rest f ex hc] at hmem
              simp at hmem
              rcases hmem with h1 | h1
              · exact absurd h1 (loop_no_construct e0 rest b ext)
              · exact h1.2
          | some oldc =>
              rw [recreateSwapChain_old_eq oldc e0 rest f ex hc] at hmem
              simp at hmem
              rcases hmem with h1 | h1
              · exact absurd h1 (loop_no_construct e0 rest b ext)
              · exact h1.2
        subst hkey
        obtain ⟨⟨hw, hh⟩, zs, tail, hdec, hzero⟩ :=
          recreateReads_some e0 rest ext hc
        exact ⟨hw, hh, zs, tail, hdec, hzero⟩

/-- Witness for recreate_zero_extent_stall: with readings of zero area only,
the result is stalled; with a first reading of zero width followed by a full
reading, construction uses the full reading and the zero reading precedes
it. -/
theorem recreate_zero_extent_stall_witness :
    (recreateSwapChain (some sampleChain) ⟨0, 600⟩ [⟨0, 0⟩]
        sampleFormats).result = Outcome.stalled ∧
    ((⟨800, 600⟩ : Extent).width ≠ 0 ∧ (⟨800, 600⟩ : Extent).height ≠ 0 ∧
      ∃ zs tail,
        [(⟨0, 600⟩ : Extent), ⟨800, 600⟩] = zs ++ (⟨800, 600⟩ : Extent) :: tail ∧
        ∀ z ∈ zs, z.width = 0 ∨ z.height = 0) := by
  constructor
  · exact ((recreate_zero_extent_stall (some sampleChain) ⟨0, 600⟩ [⟨0, 0⟩]
      sampleFormats).1 (by decide)).1
  · exact (recreate_zero_extent_stall (some sampleChain) ⟨0, 600⟩ [⟨800, 600⟩]
      sampleFormats).2 true ⟨800, 600⟩ (by decide)

lemma compareSwapFormats_true_iff (a b : SwapChain) :
    SwapChain.compareSwapFormats a b = true ↔ a.formats = b.formats := by
  obtain ⟨⟨ai, ad⟩, ae⟩ := a
  obtain ⟨⟨bi, bd⟩, be⟩ := b
  simp [SwapChain.compareSwapFormats, SwapFormats.mk.injEq]

/-- Claim C5: when recreation with an existing chain reaches construction, a
new chain whose image or depth pixel format differs from the old one makes
recreateSwapChain throw the runtime error of Renderer.hpp line 83 — the
fatal render-pass-incompatible signal — while matching formats complete
recreation normally with the new chain. -/
theorem recreate_format_change_fatal (old : SwapChain) (e0 : Extent)
    (rest : List Extent) (f : SwapFormats) (ext : Extent)
    (h : (recreateReads e0 rest).2 = some ext) :
    (f ≠ old.formats →
      (recreateSwapChain (some old) e0 rest f).result =
        Outcome.threw "Swap chain image(or depth) format has changed!") ∧
    (f = old.formats →
      (recreateSwapChain (some old) e0 rest f).result =
        Outcome.ok ⟨f, ext⟩) := by
  rw [recreateSwapChain_old_eq old e0 rest f ext h]
  constructor
  · intro hne
    have hcmp : SwapChain.compareSwapFormats old ⟨f, ext⟩ = false := by
      rw [Bool.eq_false_iff, Ne, compareSwapFormats_true_iff]
      exact fun hh => hne hh.symm
    simp [hcmp]
  · intro hf
    have hcmp : SwapChain.compareSwapFormats old ⟨f, ext⟩ = true :=
      (compareSwapFormats_true_iff old ⟨f, ext⟩).mpr hf.symm
    simp [hcmp]

/-- Witness for recreate_format_change_fatal: changed formats throw the
format-change error, identical formats recreate normally. -/
theorem recreate_format_change_fatal_witness :
    (recreateSwapChain (some sampleChain) sampleExtent []
        (⟨1, 2⟩ : SwapFormats)).result =
      Outcome.threw "Swap chain image(or depth) format has changed!" ∧
    (recreateSwapChain (some sampleChain) sampleExtent []
        sampleFormats).result =
      Outcome.ok ⟨sampleFormats, sampleExtent⟩ := by
  constructor
  · exact (recreate_format_change_fatal sampleChain sampleExtent [] ⟨1, 2⟩
      sampleExtent (by decide)).1 (by decide)
  · exact (recreate_format_change_fatal sampleChain sampleExtent []
      sampleFormats sampleExtent (by decide)).2 (by decide)

/-- Claim C7: in an endFrame call with a frame in progress and
vkEndCommandBuffer succeeding, a submit status of OutOfDate or Suboptimal,
or a set window resize flag, resets the flag and triggers recreation after
the present attempt — the submit event strictly precedes the recreateCalled
event in the trace, so only the next frame is affected; a Success status
with the flag clear performs no recreation and completes normally. -/
theorem endFrame_recreation_condition (s : RendererState) (r : VkResult)
    (e0 : Extent) (rest : List Extent) (f : SwapFormats)
    (h : s.isFrameStarted = true) :
    ((r = VkResult.errorOutOfDateKHR ∨ r = VkResult.suboptimalKHR ∨
        s.windowResized = true) →
      (∃ tl, (endFrame s true r e0 rest f).trace =
          REvent.submitCommandBuffers :: REvent.recreateCalled :: tl) ∧
      (∀ s', (endFrame s true r e0 rest f).result = Outcome.ok s' →
        s'.windowResized = false)) ∧
    ((r = VkResult.success ∧ s.windowResized = false) →
      REvent.recreateCalled ∉ (endFrame s true r e0 rest f).trace ∧
      (endFrame s true r e0 rest f).result =
        Outcome.ok { s with
                     isFrameStarted := false,
                     currentFrameIndex :=
                       (s.currentFrameIndex + 1) % MAX_FRAMES_IN_FLIGHT }) := by
  constructor
  · intro hc
    rw [endFrame_recreate s r e0 rest f h hc]
    refine ⟨⟨_, rfl⟩, ?_⟩
    intro s' hok
    simp only at hok
    obtain ⟨c, _, hs'⟩ := Outcome.mapOk_eq_ok _ _ _ hok
    rw [hs']
  · rintro ⟨hr, hw⟩
    subst hr
    rw [endFrame_plain_success s e0 rest f h hw]
    exact ⟨by simp, rfl⟩

/-- Witness for endFrame_recreation_condition: a set resize flag with a
Success status still recreates (submit preceding recreateCalled), and a
Success status with a clear flag performs no recreation. -/
theorem endFrame_recreation_condition_witness :
    (∃ tl, (endFrame sampleResized true VkResult.success sampleExtent []
        sampleFormats).trace =
      REvent.submitCommandBuffers :: REvent.recreateCalled :: tl) ∧
    REvent.recreateCalled ∉ (endFrame sampleStarted true VkResult.success
        sampleExtent [] sampleFormats).trace := by
  constructor
  · exact ((endFrame_recreation_condition sampleResized VkResult.success
      sampleExtent [] sampleFormats (by decide)).1 (by decide)).1
  · exact ((endFrame_recreation_condition sampleStarted VkResult.success
      sampleExtent [] sampleFormats (by decide)).2 (by decide)).1

lemma endFrame_ok_commandBuffers (s : RendererState) (eOk : Bool)
    (r : VkResult) (e0 : Extent) (rest : List Extent) (f : SwapFormats)
    (s' : RendererState)
    (h : (endFrame s eOk r e0 rest f).result = Outcome.ok s') :
    s'.commandBuffers = s.commandBuffers := by
  cases h1 : s.isFrameStarted with
  | false =>
      rw [endFrame_not_started s eOk r e0 rest f h1] at h
      simp at h
  | true =>
      cases eOk with
      | false =>
          rw [endFrame_endCmd_fail s r e0 rest f h1] at h
          simp at h
      | true =>
          by_cases hc : r = VkResult.errorOutOfDateKHR ∨
              r = VkResult.suboptimalKHR ∨ s.windowResized = true
          · rw [endFrame_recreate s r e0 rest f h1 hc] at h
            simp only at h
            obtain ⟨c, _, hs'⟩ := Outcome.mapOk_eq_ok _ _ _ h
            rw [hs']
          · by_cases hr : r = VkResult.success
            · subst hr
              have hw : s.windowResized = false := by
                cases hw : s.windowResized with
                | false => rfl
                | true => exact absurd (Or.inr (Or.inr hw)) hc
              rw [endFrame_plain_success s e0 rest f h1 hw] at h
              simp only at h
              rw [Outcome.ok.injEq] at h
              rw [← h]
            · rw [endFrame_hard_failure s r e0 rest f h1 hc hr] at h
              simp at h

lemma beginFrame_ok_commandBuffers (s : RendererState) (acq : VkResult)
    (img : Nat) (bOk : Bool) (e0 : Extent) (rest : List Extent)
    (f : SwapFormats) (sb : RendererState) (cb : Option Nat)
    (h : (beginFrame s acq img bOk e0 rest f).result = Outcome.ok (sb, cb)) :
    sb.commandBuffers = s.commandBuffers := by
  cases h1 : s.isFrameStarted with
  | true =>
      rw [beginFrame_started s acq img bOk e0 rest f h1] at h
      simp at h
  | false =>
      by_cases hood : acq = VkResult.errorOutOfDateKHR
      · subst hood
        rw [beginFrame_outOfDate s img bOk e0 rest f h1] at h
        simp only at h
        obtain ⟨c, _, hs'⟩ := Outcome.mapOk_eq_ok _ _ _ h
        rw [Prod.mk.injEq] at hs'
        rw [hs'.1]
      · by_cases ha : acq = VkResult.success ∨ acq = VkResult.suboptimalKHR
        · cases bOk with
          | false =>
              rw [beginFrame_beginCmd_fail s acq img e0 rest f h1 ha] at h
              simp at h
          | true =>
              rw [beginFrame_success s acq img e0 rest f h1 ha] at h
              simp only at h
              rw [Outcome.ok.injEq, Prod.mk.injEq] at h
              rw [← h.1]
        · push_neg at ha
          rw [beginFrame_hard_failure s acq img bOk e0 rest f h1 hood
            ha.1 ha.2] at h
          simp at h

/-- Claim C8: exactly MAX_FRAMES_IN_FLIGHT command buffers are allocated —
one per frame slot — both by createCommandBuffers and in a fully constructed
Renderer; getCurrentCommandBuffer selects the buffer by the current frame
slot index and is unaffected by the acquired swapchain image index; and
beginFrame/endFrame never change the command buffer list, so the count and
the indexing discipline persist across all frames. -/
theorem command_buffers_count_and_indexing (alloc : Nat → Nat)
    (allocOk resized : Bool) (bufs : List Nat) (sr s s' sb : RendererState)
    (cb : Option Nat) (k img : Nat) (eOk bOk : Bool) (r acq : VkResult)
    (e0 : Extent) (rest : List Extent) (f : SwapFormats) :
    (createCommandBuffers alloc allocOk = Outcome.ok bufs →
      bufs.length = MAX_FRAMES_IN_FLIGHT) ∧
    (mkRenderer e0 rest f alloc allocOk resized = Outcome.ok sr →
      sr.commandBuffers.length = MAX_FRAMES_IN_FLIGHT) ∧
    (s.isFrameStarted = true →
      getCurrentCommandBuffer s =
        Outcome.ok (s.commandBuffers.getD s.currentFrameIndex 0)) ∧
    (getCurrentCommandBuffer { s with currentImageIndex := k } =
      getCurrentCommandBuffer s) ∧
    ((endFrame s eOk r e0 rest f).result = Outcome.ok s' →
      s'.commandBuffers = s.commandBuffers) ∧
    ((beginFrame s acq img bOk e0 rest f).result = Outcome.ok (sb, cb) →
      sb.commandBuffers = s.commandBuffers) := by
  refine ⟨?_, ?_, ?_, ?_, ?_, ?_⟩
  · intro h
    cases allocOk with
    | false => simp [createCommandBuffers] at h
    | true =>
        simp [createCommandBuffers] at h
        rw [← h]
        simp
  · intro h
    unfold mkRenderer at h
    cases hrec : (recreateSwapChain none e0 rest f).result with
    | ok chain =>
        rw [hrec] at h
        obtain ⟨bufs2, hb, hsr⟩ := Outcome.mapOk_eq_ok _ _ _ h
        rw [hsr]
        cases allocOk with
        | false => simp [createCommandBuffers] at hb
        | true =>
            simp [createCommandBuffers] at hb
            simp [← hb]
    | threw m => rw [hrec] at h; simp at h
    | assertFailed m => rw [hrec] at h; simp at h
    | stalled => rw [hrec] at h; simp at h
  · intro h
    simp [getCurrentCommandBuffer, h]
  · rfl
  · exact endFrame_ok_commandBuffers s eOk r e0 rest f s'
  · exact beginFrame_ok_commandBuffers s acq img bOk e0 rest f sb cb

/-- Witness for command_buffers_count_and_indexing: a concrete construction
allocating handles 10 and 11 yields exactly two buffers, and the concrete
in-progress state selects slot 0's buffer. -/
theorem command_buffers_count_and_indexing_witness :
    (createCommandBuffers (fun i => 10 + i) true = Outcome.ok [10, 11] ∧
     ([10, 11] : List Nat).length = MAX_FRAMES_IN_FLIGHT) ∧
    (mkRenderer sampleExtent [] sampleFormats (fun i => 10 + i) true false =
        Outcome.ok sampleIdle ∧
     sampleIdle.commandBuffers.length = MAX_FRAMES_IN_FLIGHT) ∧
    getCurrentCommandBuffer sampleStarted = Outcome.ok 10 ∧
    (endFrame sampleStarted true VkResult.success sampleExtent []
        sampleFormats).result =
      Outcome.ok { sampleStarted with isFrameStarted := false,
                                      currentFrameIndex := 1 } ∧
    ({ sampleStarted with isFrameStarted := false,
                          currentFrameIndex := 1 } : RendererState).commandBuffers =
      sampleStarted.commandBuffers := by
  refine ⟨⟨by decide, ?_⟩, ⟨by decide, ?_⟩, by decide, by decide, ?_⟩
  · exact (command_buffers_count_and_indexing (fun i => 10 + i) true false
      [10, 11] sampleIdle sampleStarted sampleStarted sampleStarted none 0 0
      true true VkResult.success VkResult.success sampleExtent []
      sampleFormats).1 (by decide)
  · exact (command_buffers_count_and_indexing (fun i => 10 + i) true false
      [10, 11] sampleIdle sampleStarted sampleStarted sampleStarted none 0 0
      true true VkResult.success VkResult.success sampleExtent []
      sampleFormats).2.1 (by decide)
  · exact (command_buffers_count_and_indexing (fun i => 10 + i) true false
      [10, 11] sampleIdle sampleStarted
      { sampleStarted with isFrameStarted := false, currentFrameIndex := 1 }
      sampleStarted none 0 0 true true VkResult.success VkResult.success
      sampleExtent [] sampleFormats).2.2.2.2.1 (by decide)

/-- Events that construct or release swapchain image resources. -/
def touchesImages : REvent → Bool
  | REvent.constructSwapChain _ _ => true
  | REvent.releaseOldChain => true
  | _ => false

lemma recreate_trace_event_forms (old : Option SwapChain) (e0 : Extent)
    (rest : List Extent) (f : SwapFormats) :
    ∀ ev ∈ (recreateSwapChain old e0 rest f).trace,
      (∃ x, ev = REvent.readExtent x) ∨ ev = REvent.waitEvents ∨
      ev = REvent.deviceWaitIdle ∨
      (∃ ext, ev = REvent.constructSwapChain old.isSome ext) ∨
      (old.isSome = true ∧ ev = REvent.releaseOldChain) := by
  intro ev hmem
  cases hc : (recreateReads e0 rest).2 with
  | none =>
      rw [recreateSwapChain_stalled_eq old e0 rest f hc] at hmem
      rcases List.mem_cons.mp hmem with h1 | h1
      · exact Or.inl ⟨e0, h1⟩
      · rcases recreateReads_loop_events e0 rest ev h1 with h2 | h2
        · exact Or.inl h2
        · exact Or.inr (Or.inl h2)
  | some ex =>
      cases old with
      | none =>
          rw [recreateSwapChain_fresh_eq e0 rest f ex hc] at hmem
          rcases List.mem_cons.mp hmem with h1 | h1
          · exact Or.inl ⟨e0, h1⟩
          rcases List.mem_append.mp h1 with h2 | h2
          · rcases recreateReads_loop_events e0 rest ev h2 with h3 | h3
            · exact Or.inl h3
            · exact Or.inr (Or.inl h3)
          rcases List.mem_cons.mp h2 with h3 | h3
          · exact Or.inr (Or.inr (Or.inl h3))
          rcases List.mem_cons.mp h3 with h4 | h4
          · exact Or.inr (Or.inr (Or.inr (Or.inl ⟨ex, h4⟩)))
          · exact absurd h4 (List.not_mem_nil ev)
      | some oldc =>
          rw [recreateSwapChain_old_eq oldc e0 rest f ex hc] at hmem
          rcases List.mem_cons.mp hmem with h1 | h1
          · exact Or.inl ⟨e0, h1⟩
          rcases List.mem_append.mp h1 with h2 | h2
          · rcases recreateReads_loop_events e0 rest ev h2 with h3 | h3
            · exact Or.inl h3
            · exact Or.inr (Or.inl h3)
          rcases List.mem_cons.mp h2 with h3 | h3
          · exact Or.inr (Or.inr (Or.inl h3))
          rcases List.mem_cons.mp h3 with h4 | h4
          · exact Or.inr (Or.inr (Or.inr (Or.inl ⟨ex, h4⟩)))
          rcases List.mem_cons.mp h4 with h5 | h5
          · exact Or.inr (Or.inr (Or.inr (Or.inr ⟨rfl, h5⟩)))
          · exact absurd h5 (List.not_mem_nil ev)

/-- Claim C6: at every position of a recreateSwapChain trace, an event that
constructs or releases swapchain image resources is strictly preceded by the
device-idle wait; a release of the old chain is strictly preceded by the
construction of the new chain, which received the old handle (its
withOldChain field is true exactly when an old chain exists); and with no
old chain, no release occurs at all. -/
theorem recreate_device_idle_ordering (old : Option SwapChain) (e0 : Extent)
    (rest : List Extent) (f : SwapFormats) (pre post : List REvent)
    (ev : REvent)
    (heq : (recreateSwapChain old e0 rest f).trace = pre ++ ev :: post) :
    (touchesImages ev = true → REvent.deviceWaitIdle ∈ pre) ∧
    (ev = REvent.releaseOldChain →
      ∃ ext, REvent.constructSwapChain true ext ∈ pre) ∧
    (∀ b ext, ev = REvent.constructSwapChain b ext → b = old.isSome) ∧
    (old = none → ev ≠ REvent.releaseOldChain) := by
  have hev : ev ∈ (recreateSwapChain old e0 rest f).trace := by
    rw [heq]
    simp
  have hforms := recreate_trace_event_forms old e0 rest f ev hev
  refine ⟨?_, ?_, ?_, ?_⟩
  · intro ht
    cases hc : (recreateReads e0 rest).2 with
    | none =>
        exfalso
        rw [recreateSwapChain_stalled_eq old e0 rest f hc] at hev
        rcases List.mem_cons.mp hev with h1 | h1
        · rw [h1] at ht
          simp [touchesImages] at ht
        · rcases recreateReads_loop_events e0 rest ev h1 with ⟨y, h3⟩ | h3 <;>
            rw [h3] at ht <;> simp [touchesImages] at ht
    | some ex =>
        cases old with
        | none =>
            rw [recreateSwapChain_fresh_eq e0 rest f ex hc] at heq
            refine mem_left_of_append_cons
              (REvent.readExtent e0 :: (recreateReads e0 rest).1)
              [REvent.constructSwapChain false ex]
              REvent.deviceWaitIdle ev pre post ?_ ?_ heq
            · intro a ha hae
              subst hae
              rcases List.mem_cons.mp ha with h1 | h1
              · rw [h1] at ht
                simp [touchesImages] at ht
              · rcases recreateReads_loop_events e0 rest _ h1 with ⟨y, h3⟩ | h3 <;>
                  rw [h3] at ht <;> simp [touchesImages] at ht
            · intro he
              rw [← he] at ht
              simp [touchesImages] at ht
        | some oldc =>
            rw [recreateSwapChain_old_eq oldc e0 rest f ex hc] at heq
            refine mem_left_of_append_cons
              (REvent.readExtent e0 :: (recreateReads e0 rest).1)
              [REvent.constructSwapChain true ex, REvent.releaseOldChain]
              REvent.deviceWaitIdle ev pre post ?_ ?_ heq
            · intro a ha hae
              subst hae
              rcases List.mem_cons.mp ha with h1 | h1
              · rw [h1] at ht
                simp [touchesImages] at ht
              · rcases recreateReads_loop_events e0 rest _ h1 with ⟨y, h3⟩ | h3 <;>
                  rw [h3] at ht <;> simp [touchesImages] at ht
            · intro he
              rw [← he] at ht
              simp [touchesImages] at ht
  · intro hrel
    subst hrel
    have hs : old.isSome = true := by
      rcases hforms with ⟨x, h2⟩ | h2 | h2 | ⟨x, h2⟩ | ⟨hs, h2⟩
      · simp at h2
      · simp at h2
      · simp at h2
      · simp at h2
      · exact hs
    obtain ⟨oldc, holdc⟩ := Option.isSome_iff_exists.mp hs
    subst holdc
    cases hc : (recreateReads e0 rest).2 with
    | none =>
        exfalso
        rw [recreateSwapChain_stalled_eq (some oldc) e0 rest f hc] at hev
        simp only [List.mem_cons] at hev
        rcases hev with h1 | h1
        · simp at h1
        · rcases recreateReads_loop_events e0 rest _ h1 with ⟨y, h3⟩ | h3 <;>
            simp at h3
    | some ex =>
        rw [recreateSwapChain_old_eq oldc e0 rest f ex hc] at heq
        have hlist : (REvent.readExtent e0 :: (recreateReads e0 rest).1 ++
            [REvent.deviceWaitIdle]) ++
            REvent.constructSwapChain true ex :: [REvent.releaseOldChain] =
            pre ++ REvent.releaseOldChain :: post := by
          rw [← heq]
          simp
        refine ⟨ex, mem_left_of_append_cons _ _ _ _ pre post ?_ (by simp) hlist⟩
        intro a ha hae
        subst hae
        rcases List.mem_cons.mp ha with h1 | h1
        · simp at h1
        rcases List.mem_append.mp h1 with h1 | h1
        · rcases recreateReads_loop_events e0 rest _ h1 with ⟨y, h3⟩ | h3 <;>
            simp at h3
        · simp at h1
  · intro b ext hevc
    subst hevc
    rcases hforms with ⟨x, h2⟩ | h2 | h2 | ⟨x, h2⟩ | ⟨hs, h2⟩
    · simp at h2
    · simp at h2
    · simp at h2
    · simp at h2
      exact h2.1
    · simp at h2
  · intro hnone hrel
    subst hnone
    subst hrel
    rcases hforms with ⟨x, h2⟩ | h2 | h2 | ⟨x, h2⟩ | ⟨hs, h2⟩
    · simp at h2
    · simp at h2
    · simp at h2
    · simp at h2
    · simp at hs

/-- Witness for recreate_device_idle_ordering on a concrete recreation trace
(read, idle, construct-with-old, release), split before the release event:
the device-idle wait and the construction both lie in the prefix. -/
theorem recreate_device_idle_ordering_witness :
    REvent.deviceWaitIdle ∈
      [REvent.readExtent sampleExtent, REvent.deviceWaitIdle,
       REvent.constructSwapChain true sampleExtent] ∧
    ∃ ext, REvent.constructSwapChain true ext ∈
      [REvent.readExtent sampleExtent, REvent.deviceWaitIdle,
       REvent.constructSwapChain true sampleExtent] := by
  have h := recreate_device_idle_ordering (some sampleChain) sampleExtent []
    sampleFormats
    [REvent.readExtent sampleExtent, REvent.deviceWaitIdle,
     REvent.constructSwapChain true sampleExtent] [] REvent.releaseOldChain
    (by decide)
  exact ⟨h.1 rfl, h.2.1 rfl⟩

end Ritis
